import Mathlib

/-!
Verification of the stockmath scenario-projection engine.

The source (`src/app.py`) is a single Streamlit dashboard.  Its numeric core is
two module-level blocks:

* metrics extraction (lines 22-40): normalises the raw provider mapping into a
  complete set of fundamentals, with per-field defaults;
* the projection loop (lines 102-144): for each of the three scenarios
  (Bear, Base, Bull) projects future revenue / earnings / free cash flow,
  converts exit valuations to per-share target prices and annualised returns,
  and assembles a chart series.

The embedding below models Python float arithmetic by exact rational
arithmetic (`ℚ`) for the algebraic pipeline, and by real arithmetic (`ℝ`,
`Real.rpow`) for the fractional-exponent CAGR step.  Python's
`ZeroDivisionError` (raised at `shares = mcap / price` when `price == 0`,
line 115) is modelled by returning `none`: the per-scenario computation is an
`Option`-valued function and the surrounding loop propagates the failure.
String formatting of the result rows (a presentation concern) is not part of
the numeric core and is not modelled.
-/

namespace StockMath

/-- The raw provider mapping (`info` in the source).  Every field may be
absent; `Option.none` stands for a key that is missing from the mapping (or
mapped to Python `None`). -/
structure RawFinancials where
  currentPrice : Option ℚ
  trailingPE : Option ℚ
  profitMargins : Option ℚ
  marketCap : Option ℚ
  totalRevenue : Option ℚ
  freeCashflow : Option ℚ
  operatingCashflow : Option ℚ
  longName : Option String

/-- Fully-defaulted current-state metrics, as computed by the extraction block
(lines 22-40 of `src/app.py`). -/
structure Fundamentals where
  price : ℚ
  peRatio : ℚ
  profitMarginPct : ℚ
  marketCap : ℚ
  revenue : ℚ
  freeCashFlow : ℚ
  fcfYieldPct : ℚ
  fcfMarginPct : ℚ
  companyName : String

/-- Metrics extraction, lines 22-40 of `src/app.py`:
`price = info.get('currentPrice', 0)`; `pe = info.get('trailingPE')` with an
explicit `None` check defaulting to `0`; `margin = info.get('profitMargins', 0) * 100`;
`mcap = info.get('marketCap', 1)`; `rev = info.get('totalRevenue', 1)`;
`fcf = info.get('freeCashflow')` falling back to
`info.get('operatingCashflow', 0)` when `None`; the two derived ratios are
guarded by Python truthiness (`if mcap`, `if rev`, i.e. nonzero); the company
name defaults to the ticker string. -/
def extract (ticker : String) (info : RawFinancials) : Fundamentals :=
  let price := info.currentPrice.getD 0
  let pe := info.trailingPE.getD 0
  let margin := info.profitMargins.getD 0 * 100
  let mcap := info.marketCap.getD 1
  let rev := info.totalRevenue.getD 1
  let fcf :=
    match info.freeCashflow with
    | some v => v
    | none => info.operatingCashflow.getD 0
  { price := price
    peRatio := pe
    profitMarginPct := margin
    marketCap := mcap
    revenue := rev
    freeCashFlow := fcf
    fcfYieldPct := if mcap ≠ 0 then fcf / mcap * 100 else 0
    fcfMarginPct := if rev ≠ 0 then fcf / rev * 100 else 0
    companyName := info.longName.getD ticker }

/-- One scenario's five user-editable assumption values (the tuple returned by
`make_inputs` in the source). -/
structure ScenarioAssumptions where
  revenueGrowthPct : ℚ
  targetProfitMarginPct : ℚ
  targetFcfMarginPct : ℚ
  exitPE : ℚ
  exitFcfYieldPct : ℚ

/-- Line 106: `future_rev = rev * ((1 + g/100)**years)`. -/
def future_rev (rev g : ℚ) (years : ℕ) : ℚ :=
  rev * (1 + g / 100) ^ years

/-- Line 107: `future_earnings = future_rev * (pm/100)`. -/
def future_earnings (rev g pm : ℚ) (years : ℕ) : ℚ :=
  future_rev rev g years * (pm / 100)

/-- Line 108: `future_fcf = future_rev * (fcfm/100)`. -/
def future_fcf (rev g fcfm : ℚ) (years : ℕ) : ℚ :=
  future_rev rev g years * (fcfm / 100)

/-- Line 111: `target_mcap_eps = future_earnings * t_pe`. -/
def target_mcap_eps (rev g pm t_pe : ℚ) (years : ℕ) : ℚ :=
  future_earnings rev g pm years * t_pe

/-- Line 112: `target_mcap_fcf = future_fcf / (t_yld/100) if t_yld > 0 else 0`. -/
def target_mcap_fcf (rev g fcfm t_yld : ℚ) (years : ℕ) : ℚ :=
  if 0 < t_yld then future_fcf rev g fcfm years / (t_yld / 100) else 0

/-- Lines 115-116: `shares = mcap / price; if shares == 0: shares = 1`.
Only meaningful when `price ≠ 0`; the `price = 0` case raises in Python and is
handled by the `Option` in `scenarioResult`, never by this function. -/
def sharesOf (f : Fundamentals) : ℚ :=
  if f.marketCap / f.price = 0 then 1 else f.marketCap / f.price

/-- Line 118: `price_eps = target_mcap_eps / shares`. -/
def price_eps (f : Fundamentals) (a : ScenarioAssumptions) (years : ℕ) : ℚ :=
  target_mcap_eps f.revenue a.revenueGrowthPct a.targetProfitMarginPct a.exitPE years /
    sharesOf f

/-- Line 119: `price_fcf = target_mcap_fcf / shares`. -/
def price_fcf (f : Fundamentals) (a : ScenarioAssumptions) (years : ℕ) : ℚ :=
  target_mcap_fcf f.revenue a.revenueGrowthPct a.targetFcfMarginPct a.exitFcfYieldPct years /
    sharesOf f

/-- Line 120: `avg_price = (price_eps + price_fcf) / 2`. -/
def avg_price (f : Fundamentals) (a : ScenarioAssumptions) (years : ℕ) : ℚ :=
  (price_eps f a years + price_fcf f a years) / 2

/-- Lines 124-126: `cagr = ((target / price)**(1/years)) - 1`, real-exponent
power (`Real.rpow`).  The formula itself has no branch on the sign of
`target`; in Python a negative ratio with the fractional exponent produces a
complex number rather than a real one. -/
noncomputable def cagr (targetPrice currentPrice : ℚ) (years : ℕ) : ℝ :=
  ((targetPrice : ℝ) / (currentPrice : ℝ)) ^ ((1 : ℝ) / (years : ℝ)) - 1

/-- One scenario's raw numeric output (the spec's ScenarioResult; the source's
table row carries formatted strings of the same values, minus `avgCagr`). -/
structure ScenarioResult where
  scenarioName : String
  epsTargetPrice : ℚ
  epsCagr : ℝ
  fcfTargetPrice : ℚ
  fcfCagr : ℝ
  avgTargetPrice : ℚ
  avgCagr : ℝ

/-- One iteration of the projection loop (lines 102-144).  When
`f.price = 0`, line 115 (`shares = mcap / price`) raises `ZeroDivisionError`,
modelled as `none`.  Otherwise the target prices are computed and the CAGR
block applies the verbatim formula when `0 < price` and `0` otherwise
(lines 123-130). -/
noncomputable def scenarioResult (name : String) (f : Fundamentals)
    (a : ScenarioAssumptions) (years : ℕ) : Option ScenarioResult :=
  if f.price = 0 then
    none
  else
    some
      { scenarioName := name
        epsTargetPrice := price_eps f a years
        epsCagr := if 0 < f.price then cagr (price_eps f a years) f.price years else 0
        fcfTargetPrice := price_fcf f a years
        fcfCagr := if 0 < f.price then cagr (price_fcf f a years) f.price years else 0
        avgTargetPrice := avg_price f a years
        avgCagr := if 0 < f.price then cagr (avg_price f a years) f.price years else 0 }

/-- The projection loop over the fixed scenario list
`[("Bear", ...), ("Base", ...), ("Bull", ...)]` (line 95).  An exception in
any iteration aborts the whole run with no results, as in Python. -/
noncomputable def project (f : Fundamentals) (bear base bull : ScenarioAssumptions)
    (years : ℕ) : Option (List ScenarioResult) := do
  let r1 ← scenarioResult "Bear" f bear years
  let r2 ← scenarioResult "Base" f base years
  let r3 ← scenarioResult "Bull" f bull years
  return [r1, r2, r3]

/-- Line 100: `color_map = {"Bear": "#ff4b4b", "Base": "#7d7d7d", "Bull": "#09ab3b"}`.
The source only ever looks up the three scenario names. -/
def color_map (name : String) : String :=
  if name = "Bear" then "#ff4b4b"
  else if name = "Base" then "#7d7d7d"
  else if name = "Bull" then "#09ab3b"
  else ""

/-- The chart-ready series (lines 141-161): category labels, one value per
category, and one color per category. -/
structure ChartSeries where
  categories : List String
  values : List ℚ
  colors : List String

/-- Chart assembly (lines 141-161): a "Current" entry carrying the current
price and the color `"#29b5e8"`, followed by one `(name, avg_price, color)`
entry per scenario, in loop order. -/
noncomputable def chart (f : Fundamentals) (bear base bull : ScenarioAssumptions)
    (years : ℕ) : Option ChartSeries :=
  (project f bear base bull years).map fun rs =>
    { categories := "Current" :: rs.map (fun r => r.scenarioName)
      values := f.price :: rs.map (fun r => r.avgTargetPrice)
      colors := "#29b5e8" :: rs.map (fun r => color_map r.scenarioName) }

/-! ### Concrete inputs used by witnesses and counterexamples -/

/-- The spec's worked-example Base assumptions:
`g=10, pm=20, fcfm=15, exitPE=20, exitYield=4`. -/
def exAssumptions : ScenarioAssumptions := ⟨10, 20, 15, 20, 4⟩

/-- The spec's worked-example fundamentals:
`revenue=1000, marketCap=2000, price=100`. -/
def c3Fund : Fundamentals := ⟨100, 0, 20, 2000, 1000, 150, 7.5, 15, "Example"⟩

/-- Fundamentals with a zero current price (as produced by `extract` when the
provider mapping has no `currentPrice`). -/
def zeroPriceFund : Fundamentals := ⟨0, 0, 20, 2000, 1000, 150, 7.5, 15, "ZeroPrice"⟩

/-- A second zero-price fundamentals value. -/
def zeroPriceFund2 : Fundamentals := ⟨0, 0, 10, 50, 10, 5, 10, 50, "ZeroPrice2"⟩

/-- Fundamentals with a negative current price (the only way the code's
`else`-branch of the CAGR guard is reached). -/
def negPriceFund : Fundamentals := ⟨-100, 0, 20, 2000, 1000, 150, 7.5, 15, "NegPrice"⟩

/-- Fundamentals with a zero market capitalisation and a nonzero price: the
case the `shares == 0` guard (line 116) actually absorbs. -/
def zeroMcapFund : Fundamentals := ⟨100, 0, 20, 0, 1000, 150, 0, 15, "ZeroMcap"⟩

/-- Assumptions with negative target margins, driving both target prices
negative. -/
def negAssumptions : ScenarioAssumptions := ⟨10, -50, -50, 20, 4⟩

/-! ### C1 — totality of the numeric core -/

/-- Claim C1, counterexample: the claim as stated includes zero price in the
domain, but at `price = 0` the shares division (line 115,
`shares = mcap / price`) raises `ZeroDivisionError`; the projection aborts
with no result, so the computation is not total over the claimed domain. -/
theorem project_zero_price_raises :
    project zeroPriceFund exAssumptions exAssumptions exAssumptions 5 = none := by
  simp [project, scenarioResult, zeroPriceFund]

/-- Claim C1 (amended): for every fundamentals value with nonzero price, every
scenario-assumptions tuple and every horizon in 3..10, the projection
completes with a result — the remaining zero denominators are absorbed by
guards (zero market cap resolves the implied share count to the fallback `1`;
a zero or negative exit yield resolves `target_mcap_fcf` to `0`).  Zero price
is the one unguarded denominator. -/
theorem project_total_of_price_ne_zero (f : Fundamentals)
    (bear base bull : ScenarioAssumptions) (years : ℕ)
    (_h3 : 3 ≤ years) (_h10 : years ≤ 10) (hp : f.price ≠ 0) :
    (project f bear base bull years).isSome = true ∧
      (f.marketCap = 0 → sharesOf f = 1) := by
  constructor
  · simp [project, scenarioResult, hp]
  · intro h
    simp [sharesOf, h]

/-- Witness for C1's amended theorem at a concrete zero-market-cap input. -/
theorem project_total_of_price_ne_zero_witness :
    (3 ≤ 5 ∧ 5 ≤ 10 ∧ zeroMcapFund.price ≠ 0) ∧
      ((project zeroMcapFund exAssumptions exAssumptions exAssumptions 5).isSome = true ∧
        (zeroMcapFund.marketCap = 0 → sharesOf zeroMcapFund = 1)) :=
  ⟨⟨by norm_num, by norm_num, by norm_num [zeroMcapFund]⟩,
   project_total_of_price_ne_zero zeroMcapFund exAssumptions exAssumptions exAssumptions 5
     (by norm_num) (by norm_num) (by norm_num [zeroMcapFund])⟩

/-! ### C2 — zero-price guard path -/

/-- Claim C2, counterexample: with `price = 0` the projection does not
complete and produces no `ScenarioResult` at all — the `ZeroDivisionError`
from `shares = mcap / price` (line 115) fires before the CAGR guard
(lines 123-130) is ever reached. -/
theorem zero_price_no_scenarioResult :
    (project zeroPriceFund2 exAssumptions exAssumptions exAssumptions 5).isSome = false := by
  simp [project, scenarioResult, zeroPriceFund2]

/-- Claim C2 (amended): the `cagr = 0` guard branch is reachable only for a
negative current price; there all three return figures of every scenario are
`0` and the projection completes with three results.  (For `price = 0` the
scenario computation raises at the shares division and yields no result.) -/
theorem negative_price_cagr_zero (f : Fundamentals)
    (bear base bull : ScenarioAssumptions) (years : ℕ) (hp : f.price < 0) :
    (project f bear base bull years).map
        (fun rs => rs.map (fun r => (r.epsCagr, r.fcfCagr, r.avgCagr))) =
      some [(0, 0, 0), (0, 0, 0), (0, 0, 0)] := by
  have hne : f.price ≠ 0 := ne_of_lt hp
  have hnp : ¬ 0 < f.price := not_lt.mpr hp.le
  simp [project, scenarioResult, hne, hnp]

/-- Witness for C2's amended theorem at a concrete negative-price input. -/
theorem negative_price_cagr_zero_witness :
    negPriceFund.price < 0 ∧
      (project negPriceFund exAssumptions exAssumptions exAssumptions 5).map
          (fun rs => rs.map (fun r => (r.epsCagr, r.fcfCagr, r.avgCagr))) =
        some [(0, 0, 0), (0, 0, 0), (0, 0, 0)] :=
  ⟨by norm_num [negPriceFund],
   negative_price_cagr_zero negPriceFund exAssumptions exAssumptions exAssumptions 5
     (by norm_num [negPriceFund])⟩

/-! ### C4 — exit-yield guard -/

/-- Claim C4: for all numeric inputs, a non-positive exit FCF yield resolves
`target_mcap_fcf` to `0` regardless of `future_fcf`, and a positive exit FCF
yield gives `target_mcap_fcf = future_fcf / (t_yld / 100)` (line 112). -/
theorem target_mcap_fcf_guard (rev g fcfm t_yld : ℚ) (years : ℕ) :
    (t_yld ≤ 0 → target_mcap_fcf rev g fcfm t_yld years = 0) ∧
      (0 < t_yld →
        target_mcap_fcf rev g fcfm t_yld years =
          future_fcf rev g fcfm years / (t_yld / 100)) := by
  constructor
  · intro h
    simp [target_mcap_fcf, not_lt.mpr h]
  · intro h
    simp [target_mcap_fcf, h]

/-- Witness for C4 at concrete yields `-2` (guarded to `0`) and `4`. -/
theorem target_mcap_fcf_guard_witness :
    ((-2 : ℚ) ≤ 0 ∧ target_mcap_fcf 1000 10 15 (-2) 5 = 0) ∧
      ((0 : ℚ) < 4 ∧
        target_mcap_fcf 1000 10 15 4 5 = future_fcf 1000 10 15 5 / (4 / 100)) :=
  ⟨⟨by norm_num, (target_mcap_fcf_guard 1000 10 15 (-2) 5).1 (by norm_num)⟩,
   ⟨by norm_num, (target_mcap_fcf_guard 1000 10 15 4 5).2 (by norm_num)⟩⟩

/-! ### C3 — end-to-end worked example -/

/-- The Base-scenario result at the worked-example input (price `100`, so the
projection succeeds and `getD` never falls back to the dummy record). -/
noncomputable def c3Result : ScenarioResult :=
  (scenarioResult "Base" c3Fund exAssumptions 5).getD ⟨"", 0, 0, 0, 0, 0, 0⟩

/-- A fifth-power lower bound transfers to the fifth root. -/
lemma lt_rpow_fifth {x l : ℝ} (h : 0 < l) (h5 : l ^ (5 : ℕ) < x) :
    l < x ^ ((1 : ℝ) / 5) := by
  have e : ((1 : ℝ) / 5) = ((5 : ℕ) : ℝ)⁻¹ := by norm_num
  rw [e]
  calc l = (l ^ (5 : ℕ)) ^ (((5 : ℕ) : ℝ))⁻¹ :=
        (Real.pow_rpow_inv_natCast h.le (by norm_num)).symm
    _ < x ^ (((5 : ℕ) : ℝ))⁻¹ :=
        Real.rpow_lt_rpow (pow_pos h 5).le h5 (by positivity)

/-- A fifth-power upper bound transfers to the fifth root. -/
lemma rpow_fifth_lt {x u : ℝ} (h : 0 ≤ x) (h0 : 0 < u) (h5 : x < u ^ (5 : ℕ)) :
    x ^ ((1 : ℝ) / 5) < u := by
  have e : ((1 : ℝ) / 5) = ((5 : ℕ) : ℝ)⁻¹ := by norm_num
  rw [e]
  calc x ^ (((5 : ℕ) : ℝ))⁻¹ < (u ^ (5 : ℕ)) ^ (((5 : ℕ) : ℝ))⁻¹ :=
        Real.rpow_lt_rpow h h5 (by positivity)
    _ = u := Real.pow_rpow_inv_natCast h0.le (by norm_num)

/-- The worked example's average target price, computed exactly. -/
lemma c3_avg_price_eq : avg_price c3Fund exAssumptions 5 = 312.0363125 := by
  norm_num [avg_price, price_eps, price_fcf, target_mcap_eps, target_mcap_fcf,
    future_earnings, future_fcf, future_rev, sharesOf, c3Fund, exAssumptions]

/-- The worked example's average CAGR as a real power. -/
lemma c3_avgCagr_eq :
    c3Result.avgCagr = (3.120363125 : ℝ) ^ ((1 : ℝ) / 5) - 1 := by
  have h1 : c3Result.avgCagr = cagr (avg_price c3Fund exAssumptions 5) c3Fund.price 5 := by
    simp [c3Result, scenarioResult, c3Fund]
  rw [h1, c3_avg_price_eq, cagr]
  norm_num [c3Fund]

/-- Bracketing the worked example's average CAGR:
`1.2555^5 < 3.120363125 < 1.2556^5`, so the fifth root lies strictly between
`1.2555` and `1.2556`. -/
lemma c3_avgCagr_bounds :
    (0.2555 : ℝ) < c3Result.avgCagr ∧ c3Result.avgCagr < 0.2556 := by
  rw [c3_avgCagr_eq]
  constructor
  · have h := lt_rpow_fifth (l := (1.2555 : ℝ)) (x := (3.120363125 : ℝ))
      (by norm_num) (by norm_num)
    linarith
  · have h := rpow_fifth_lt (x := (3.120363125 : ℝ)) (u := (1.2556 : ℝ))
      (by norm_num) (by norm_num) (by norm_num)
    linarith

/-- Claim C3, counterexample: at the worked-example input the average CAGR is
`3.120363125 ^ (1/5) - 1 ∈ (0.2555, 0.2556)`, which differs from the claimed
`0.2558` by more than one unit in the last quoted digit (`1/10000`); the
claimed figure does not match the code's value at its own stated precision
(the true value is `≈ 0.25557`, i.e. `≈ 25.56%`, not `25.58%`). -/
theorem c3_cagr_mismatch : |c3Result.avgCagr - 0.2558| > 1 / 10000 := by
  have h := c3_avgCagr_bounds
  rw [abs_of_neg (by linarith [h.2])]
  linarith [h.2]

/-- Claim C3 (amended): with `revenue = 1000`, `marketCap = 2000`,
`price = 100` (implied shares `20`) and Base assumptions `g = 10`, `pm = 20`,
`fcfm = 15`, `exitPE = 20`, `exitYield = 4` over horizon `5`:
`futureRev = 1610.51`, `futureEarnings = 322.102`, `targetMcapEps = 6442.04`,
`priceEps = 322.102`, `futureFcf = 241.5765`, `targetMcapFcf = 6039.4125`,
`priceFcf = 301.970625`, `avgPrice = 312.0363125` (all exact), and
`cagr_avg = (312.0363125/100)^(1/5) - 1 ≈ 0.2556` (strictly between `0.2555`
and `0.2556`), not `0.2558`. -/
theorem c3_worked_example :
    future_rev 1000 10 5 = 1610.51 ∧
      future_earnings 1000 10 20 5 = 322.102 ∧
      target_mcap_eps 1000 10 20 20 5 = 6442.04 ∧
      future_fcf 1000 10 15 5 = 241.5765 ∧
      target_mcap_fcf 1000 10 15 4 5 = 6039.4125 ∧
      sharesOf c3Fund = 20 ∧
      c3Result.epsTargetPrice = 322.102 ∧
      c3Result.fcfTargetPrice = 301.970625 ∧
      c3Result.avgTargetPrice = 312.0363125 ∧
      (0.2555 : ℝ) < c3Result.avgCagr ∧ c3Result.avgCagr < 0.2556 := by
  refine ⟨?_, ?_, ?_, ?_, ?_, ?_, ?_, ?_, ?_, c3_avgCagr_bounds.1, c3_avgCagr_bounds.2⟩ <;>
    norm_num [c3Result, scenarioResult, price_eps, price_fcf, avg_price,
      target_mcap_eps, target_mcap_fcf, future_earnings, future_fcf, future_rev,
      sharesOf, c3Fund, exAssumptions]

/-! ### C5 — CAGR applied verbatim to degenerate targets -/

/-- Claim C5: whenever `0 < price`, the scenario result is exactly the record
whose CAGR fields apply the formula `((target / price)^(1/years)) - 1`
(`cagr`) to each of the three target prices — with no hypothesis on the sign
of those targets, i.e. no special-case branch for negative or zero target
prices (lines 123-126 branch only on `price`).  In Python, a negative target
makes the fractional power a complex number; the real-arithmetic reading used
here is `Real.rpow`. -/
theorem cagr_applied_verbatim (name : String) (f : Fundamentals)
    (a : ScenarioAssumptions) (years : ℕ) (hp : 0 < f.price) :
    scenarioResult name f a years =
      some
        { scenarioName := name
          epsTargetPrice := price_eps f a years
          epsCagr := cagr (price_eps f a years) f.price years
          fcfTargetPrice := price_fcf f a years
          fcfCagr := cagr (price_fcf f a years) f.price years
          avgTargetPrice := avg_price f a years
          avgCagr := cagr (avg_price f a years) f.price years } := by
  have hne : f.price ≠ 0 := hp.ne'
  simp [scenarioResult, hne, hp]

/-- Witness for C5 at a concrete input whose EPS target price is negative
(negative target profit margin): the verbatim formula is still applied. -/
theorem cagr_applied_verbatim_witness :
    (0 < c3Fund.price ∧ price_eps c3Fund negAssumptions 5 < 0) ∧
      scenarioResult "Bear" c3Fund negAssumptions 5 =
        some
          { scenarioName := "Bear"
            epsTargetPrice := price_eps c3Fund negAssumptions 5
            epsCagr := cagr (price_eps c3Fund negAssumptions 5) c3Fund.price 5
            fcfTargetPrice := price_fcf c3Fund negAssumptions 5
            fcfCagr := cagr (price_fcf c3Fund negAssumptions 5) c3Fund.price 5
            avgTargetPrice := avg_price c3Fund negAssumptions 5
            avgCagr := cagr (avg_price c3Fund negAssumptions 5) c3Fund.price 5 } :=
  ⟨⟨by norm_num [c3Fund],
    by
      norm_num [price_eps, target_mcap_eps, future_earnings, future_rev, sharesOf,
        c3Fund, negAssumptions]⟩,
   cagr_applied_verbatim "Bear" c3Fund negAssumptions 5 (by norm_num [c3Fund])⟩

/-! ### C6 — free-cash-flow fallback chain -/

/-- Claim C6: when the raw `freeCashflow` field is unavailable, the extracted
`freeCashFlow` is the `operatingCashflow` field's value (default `0`), and
when both are unavailable it is `0` — a one-level fallback chain with no
further estimation (lines 32-37). -/
theorem extract_fcf_fallback (ticker : String) (raw : RawFinancials) :
    (raw.freeCashflow = none →
      (extract ticker raw).freeCashFlow = raw.operatingCashflow.getD 0) ∧
      (raw.freeCashflow = none → raw.operatingCashflow = none →
        (extract ticker raw).freeCashFlow = 0) := by
  constructor
  · intro h
    simp [extract, h]
  · intro h h2
    simp [extract, h, h2]

/-- Missing `freeCashflow`, present `operatingCashflow = 80`. -/
def rawNoFcf : RawFinancials :=
  ⟨some 100, none, some 0.2, some 2000, some 1000, none, some 80, some "ACME"⟩

/-- Missing both cash-flow fields. -/
def rawNoCash : RawFinancials :=
  ⟨some 100, some 25, none, some 2000, some 1000, none, none, none⟩

/-- Witness for C6 at concrete raw mappings for both fallback levels. -/
theorem extract_fcf_fallback_witness :
    (rawNoFcf.freeCashflow = none ∧
      (extract "T" rawNoFcf).freeCashFlow = rawNoFcf.operatingCashflow.getD 0) ∧
      (rawNoCash.freeCashflow = none ∧ rawNoCash.operatingCashflow = none ∧
        (extract "T" rawNoCash).freeCashFlow = 0) :=
  ⟨⟨rfl, (extract_fcf_fallback "T" rawNoFcf).1 rfl⟩,
   ⟨rfl, rfl, (extract_fcf_fallback "T" rawNoCash).2 rfl rfl⟩⟩

/-! ### C7 — zero-growth identity -/

/-- Claim C7: with `revenueGrowthPct = 0` the compound-growth step is the
identity: `future_rev rev 0 years = rev` exactly, for every revenue and every
horizon (line 106). -/
theorem future_rev_zero_growth (rev : ℚ) (years : ℕ) :
    future_rev rev 0 years = rev := by
  simp [future_rev]

/-! ### C8 — determinism of the projection -/

/-- Claim C8: the projection is a pure function of its inputs — two calls
with equal fundamentals, equal per-scenario assumptions and equal horizon
yield identical result sequences; no state outside the arguments enters the
computation (the embedding of lines 93-144 takes no other inputs). -/
theorem project_deterministic (f f2 : Fundamentals)
    (bear bear2 base base2 bull bull2 : ScenarioAssumptions) (years years2 : ℕ)
    (hf : f = f2) (hb : bear = bear2) (hba : base = base2) (hbu : bull = bull2)
    (hy : years = years2) :
    project f bear base bull years = project f2 bear2 base2 bull2 years2 := by
  subst hf hb hba hbu hy
  rfl

/-- Witness for C8 at a concrete repeated call. -/
theorem project_deterministic_witness :
    project c3Fund exAssumptions exAssumptions exAssumptions 5 =
      project c3Fund exAssumptions exAssumptions exAssumptions 5 :=
  project_deterministic c3Fund c3Fund exAssumptions exAssumptions exAssumptions
    exAssumptions exAssumptions exAssumptions 5 5 rfl rfl rfl rfl rfl

/-! ### C9 — output assembly and ordering -/

/-- Claim C9: results come back in scenario order Bear, Base, Bull (the order
of the `scenarios` list, line 95); the chart series carries the categories
`["Current", "Bear", "Base", "Bull"]` with one value each — the current price
followed by the three average target prices — and the fixed colors
`"#29b5e8"` (current, blue) then Bear = `"#ff4b4b"` (red),
Base = `"#7d7d7d"` (gray), Bull = `"#09ab3b"` (green) from `color_map`
(line 100). -/
theorem chart_assembly (f : Fundamentals) (bear base bull : ScenarioAssumptions)
    (years : ℕ) (hp : f.price ≠ 0) :
    ((project f bear base bull years).getD []).map (fun r => r.scenarioName) =
        ["Bear", "Base", "Bull"] ∧
      (chart f bear base bull years).map (fun c => c.categories) =
        some ["Current", "Bear", "Base", "Bull"] ∧
      (chart f bear base bull years).map (fun c => c.values) =
        some (f.price ::
          ((project f bear base bull years).getD []).map (fun r => r.avgTargetPrice)) ∧
      (chart f bear base bull years).map (fun c => c.colors) =
        some ["#29b5e8", "#ff4b4b", "#7d7d7d", "#09ab3b"] ∧
      color_map "Bear" = "#ff4b4b" ∧ color_map "Base" = "#7d7d7d" ∧
      color_map "Bull" = "#09ab3b" := by
  refine ⟨?_, ?_, ?_, ?_, ?_, ?_, ?_⟩ <;>
    simp [project, scenarioResult, chart, color_map, hp]

/-- Witness for C9 at the worked-example input. -/
theorem chart_assembly_witness :
    c3Fund.price ≠ 0 ∧
      (((project c3Fund exAssumptions exAssumptions exAssumptions 5).getD []).map
          (fun r => r.scenarioName) = ["Bear", "Base", "Bull"] ∧
        (chart c3Fund exAssumptions exAssumptions exAssumptions 5).map
            (fun c => c.categories) = some ["Current", "Bear", "Base", "Bull"] ∧
        (chart c3Fund exAssumptions exAssumptions exAssumptions 5).map
            (fun c => c.values) =
          some (c3Fund.price ::
            ((project c3Fund exAssumptions exAssumptions exAssumptions 5).getD []).map
              (fun r => r.avgTargetPrice)) ∧
        (chart c3Fund exAssumptions exAssumptions exAssumptions 5).map
            (fun c => c.colors) =
          some ["#29b5e8", "#ff4b4b", "#7d7d7d", "#09ab3b"] ∧
        color_map "Bear" = "#ff4b4b" ∧ color_map "Base" = "#7d7d7d" ∧
        color_map "Bull" = "#09ab3b") :=
  ⟨by norm_num [c3Fund],
   chart_assembly c3Fund exAssumptions exAssumptions exAssumptions 5
     (by norm_num [c3Fund])⟩

/-! ### C10 — present-zero free cash flow is not missing -/

/-- Claim C10: a `freeCashflow` field that is present with value `0` is kept
as-is — the fallback to `operatingCashflow` triggers only on a missing (or
null) field, because line 35 tests `fcf is None`, not falsiness. -/
theorem extract_fcf_present_zero (ticker : String) (raw : RawFinancials)
    (h : raw.freeCashflow = some 0) :
    (extract ticker raw).freeCashFlow = 0 := by
  simp [extract, h]

/-- Present-zero `freeCashflow` next to a nonzero `operatingCashflow`. -/
def rawZeroFcf : RawFinancials :=
  ⟨some 100, some 25, some 0.2, some 2000, some 1000, some 0, some 777, some "ACME"⟩

/-- Witness for C10: the zero free cash flow is preserved even though the
operating cash flow is `777`. -/
theorem extract_fcf_present_zero_witness :
    rawZeroFcf.freeCashflow = some 0 ∧ rawZeroFcf.operatingCashflow = some 777 ∧
      (extract "T" rawZeroFcf).freeCashFlow = 0 :=
  ⟨rfl, rfl, extract_fcf_present_zero "T" rawZeroFcf rfl⟩

end StockMath
